import Mathlib

/-
Verification development for the venue reconnaissance tool
(scripts/recon-venues.py): a discovery-probe-classify pipeline that finds
candidate websites worth scraping for event listings and classifies each by
scraping difficulty.

The Python source is shallowly embedded below.  External collaborators
(the HTTP layer, the HTML parser, the JSON parser, URL parsing/joining) are
black boxes: their outputs are inputs of the model (a FetchOutcome, an
HtmlDoc of parse results, parsed JSON values, an abstract host extractor and
URL resolver).  Everything the script itself computes from those outputs is
translated function by function from the source.
-/

/-! ## Python string primitives used by the script -/

/-- Model of str.lower for the ASCII range (the only range the script's
fixed patterns and domains use). -/
def asciiLower (c : Char) : Char :=
  if 'A' ≤ c ∧ c ≤ 'Z' then Char.ofNat (c.toNat + 32) else c

/-- Model of str.lower on strings. -/
def pyLower (s : String) : String :=
  String.mk (s.toList.map asciiLower)

/-- Characters stripped by str.strip() with no argument (ASCII whitespace). -/
def isPySpace (c : Char) : Bool :=
  c == ' ' || c == '\t' || c == '\n' || c == '\r' || c == '\x0b' || c == '\x0c'

/-- Model of str.strip(): remove leading and trailing whitespace. -/
def pyStrip (s : String) : String :=
  String.mk (((s.toList.dropWhile isPySpace).reverse.dropWhile isPySpace).reverse)

/-- Model of str.startswith. -/
def pyStartsWith (pre s : String) : Bool :=
  List.isPrefixOf pre.toList s.toList

/-- Model of the Python substring test needle in hay (on char lists). -/
def isSubChars (needle : List Char) : List Char → Bool
  | [] => needle.isEmpty
  | c :: cs => List.isPrefixOf needle (c :: cs) || isSubChars needle cs

/-- Case-insensitive search of a fixed alternation of literal substrings,
modelling re.search with re.IGNORECASE on a pattern that is an alternation
of (lowercase) literals. -/
def containsAnyLower (lits : List String) (s : String) : Bool :=
  lits.any (fun lit => isSubChars lit.toList (pyLower s).toList)

/-- Model of str(e)[:80], the 80-character truncation of an error text. -/
def pyTake80 (s : String) : String :=
  String.mk (s.toList.take 80)

/-- Model of str.lstrip("www."): remove ALL leading characters drawn from
the set of characters of the argument, here the set containing w and
the dot.  (This is what the source does; it is not a prefix removal.) -/
def pyLstripWwwDot (s : String) : String :=
  String.mk (s.toList.dropWhile (fun c => c == 'w' || c == '.'))

/-- Join a list of char lists with a single separator character,
modelling sep.join(parts). -/
def joinChar (sep : Char) : List (List Char) → List Char
  | [] => []
  | [p] => p
  | p :: ps => p ++ sep :: joinChar sep ps

/-- Split a char list at every occurrence of the separator,
modelling s.split(sep) for a one-character separator. -/
def splitChar (sep : Char) : List Char → List (List Char)
  | [] => [[]]
  | c :: cs =>
    let r := splitChar sep cs
    if c = sep then [] :: r else (c :: r.headD []) :: r.tail

/-- Model of sep.join(parts) on strings, one-character separator. -/
def pyJoinC (sep : Char) (parts : List String) : String :=
  String.mk (joinChar sep (parts.map String.toList))

/-- Model of s.split(sep) on strings, one-character separator. -/
def pySplitC (sep : Char) (s : String) : List String :=
  (splitChar sep s.toList).map String.mk

/-! ## Fixed constants of the script -/

/-- TECH_PATTERNS: the ordered fingerprint table.  Each regex in the source
is an alternation of literal substrings (character classes expanded),
matched case-insensitively; the literals are recorded lowercased. -/
def TECH_PATTERNS : List (String × List String) :=
  [ ("wordpress", ["wp-content", "wp-includes", "wordpress"]),
    ("tribe-events", ["tribe_events", "tribe-events", "tribe/events", "the-events-calendar"]),
    ("squarespace", ["squarespace"]),
    ("wix", ["wix.com", "wixsite", "wixstatic"]),
    ("webflow", ["webflow.io", "webflow.com"]),
    ("nextjs", ["__next_data__", "next/static", "_next/static"]),
    ("drupal", ["drupal", "sites/default/files"]),
    ("elementor", ["elementor"]) ]

/-- EVENT_LINK_KEYWORDS: alternation of literal keywords, case-insensitive. -/
def EVENT_LINK_KEYWORDS : List String :=
  ["event", "calendar", "concert", "performance", "season",
   "program", "show", "whats-on", "what-s-on"]

/-- SKIP_DOMAINS: alternation of literal domain substrings, case-insensitive. -/
def SKIP_DOMAINS : List String :=
  ["instagram.com", "facebook.com", "twitter.com", "x.com", "tiktok.com",
   "youtube.com", "linkedin.com", "eventbrite.com", "ticketmaster.com",
   "meetup.com", "bsky.app", "luma.com", "discord.gg", "substack.com",
   "wikipedia.org", "toronto.ca", "canada.ca"]

/-- ARTS_TAGS: the fixed set of arts/culture tag prefixes. -/
def ARTS_TAGS : List String :=
  [ "topic/art-form",
    "instance-of/event/festival",
    "instance-of/place/event-venue",
    "instance-of/place/gallery",
    "instance-of/place/theatre",
    "instance-of/organization",
    "topic/art-form/music",
    "topic/art-form/theatre",
    "topic/art-form/dance",
    "topic/art-form/art",
    "topic/art-form/film",
    "topic/art-form/performance",
    "topic/art-form/comedy",
    "topic/art-form/media-arts" ]

/-! ## Data model -/

/-- CandidateEntry: an organization to investigate (name, seed url, derived
domain, directory tags). -/
structure CandidateEntry where
  name : String
  url : String
  domain : String
  tags : List String
deriving Repr, DecidableEq

/-- ProbeResult: the outcome of probing one CandidateEntry, field for field
the result dict built by probe_url.  tech_stack is the comma-joined string
exactly as the source stores it. -/
structure ProbeResult where
  name : String
  domain : String
  final_url : String
  status : Nat
  tech_stack : String
  jsonld_event_count : Nat
  events_subpage : Bool
  tribe_api : Bool
  tier_guess : String
  candidate_urls : List String
  error : Option String
deriving Repr, DecidableEq

/-- PyVal: a parsed JSON value as produced by json.loads (the JSON parser
is a black box; its output shape is modelled). -/
inductive PyVal where
  | null
  | bool (b : Bool)
  | int (n : Int)
  | str (s : String)
  | list (xs : List PyVal)
  | dict (fields : List (String × PyVal))

/-- Anchor: one a-element with an href attribute, as delivered by the HTML
parser: the raw href attribute and the whitespace-stripped visible text. -/
structure Anchor where
  href : String
  text : String
deriving Repr, DecidableEq

/-- HtmlDoc: the response body together with the black-box HTML parse
results the script consumes: the raw text (scanned by the fingerprinter),
the contents of every script tag of type application/ld+json (none when
json.loads fails on that block), and every anchor with an href. -/
structure HtmlDoc where
  raw : String
  jsonldScripts : List (Option PyVal)
  anchors : List Anchor

/-- FetchOutcome: what the main GET of a probe did — one of the exception
classes caught by probe_url, or a response with final URL, status and body. -/
inductive FetchOutcome where
  | timeout
  | tooManyRedirects
  | exn (msg : String)
  | response (finalUrl : String) (status : Nat) (body : HtmlDoc)

/-- Network: the black-box network behaviour one probe observes: the main
fetch outcome and the boolean answers of the three check_subpage calls
(check_subpage catches all its own exceptions and returns a Bool). -/
structure Network where
  fetch : FetchOutcome
  eventsSub : Bool
  calendarSub : Bool
  tribeApi : Bool

/-! ## Domain derivation (shared by registry scan, discovery, static input) -/

/-- Translation of parsed.netloc.lower().lstrip("www.") — the domain
derivation used by load_configured_domains, discover_t0ronto_urls and the
static input loader.  The netloc itself comes from urlparse (black box). -/
def deriveDomain (netloc : String) : String :=
  pyLstripWwwDot (pyLower netloc)

/-- Definition following the words of the spec, for comparison: lowercased
host with one leading www. prefix removed and nothing else removed. -/
def specDomainOfHost (netloc : String) : String :=
  let l := pyLower netloc
  if pyStartsWith "www." l then String.mk (l.toList.drop 4) else l

/-- Translation of load_configured_domains, with the per-line regex URL
extraction and urlparse treated as black boxes delivering the netloc of
each url: field found in the scanned files. -/
def load_configured_domains (netlocs : List String) : List String :=
  netlocs.map deriveDomain

/-! ## Prober: pure analysis steps -/

/-- Names of the fingerprint rules matching an HTML body. -/
def techMatches (html : String) : List String :=
  (TECH_PATTERNS.filter (fun p => containsAnyLower p.2 html)).map (fun p => p.1)

/-- Translation of detect_tech. -/
def detect_tech (html : String) : List String :=
  let found := techMatches html
  if found = [] then ["static"] else found

/-- Python type name, as it appears in an AttributeError message. -/
def pyTypeName : PyVal → String
  | .null => "NoneType"
  | .bool _ => "bool"
  | .int _ => "int"
  | .str _ => "str"
  | .list _ => "list"
  | .dict _ => "dict"

/-- Translation of any("event" in t.lower() for t in types): lazily scans
the list; a non-string element reached before a match raises AttributeError
(the source guards only json.loads, so this propagates out). -/
def anyEventInLower : List PyVal → Except String Bool
  | [] => .ok false
  | PyVal.str t :: rest =>
    if isSubChars "event".toList (pyLower t).toList then .ok true
    else anyEventInLower rest
  | v :: _ =>
    .error ("\x27" ++ pyTypeName v ++ "\x27 object has no attribute \x27lower\x27")

/-- Model of item.get("@type", ""). -/
def dictGetAtType (fields : List (String × PyVal)) : PyVal :=
  match fields.lookup "@type" with
  | some v => v
  | none => .str ""

/-- Contribution of one top-level JSON-LD object to the event count. -/
def eventCountOfItem : PyVal → Except String Nat
  | .dict fields =>
    match dictGetAtType fields with
    | .list ts =>
      match anyEventInLower ts with
      | .error m => .error m
      | .ok true => .ok 1
      | .ok false => .ok 0
    | .str s => .ok (if isSubChars "event".toList (pyLower s).toList then 1 else 0)
    | _ => .ok 0
  | _ => .ok 0

/-- Count over the items of one script block. -/
def countItems : List PyVal → Except String Nat
  | [] => .ok 0
  | it :: rest =>
    match eventCountOfItem it with
    | .error m => .error m
    | .ok k =>
      match countItems rest with
      | .error m => .error m
      | .ok n => .ok (k + n)

/-- Translation of count_jsonld_events: every ld+json script block is
either skipped (json.loads failed, modelled as none) or treated as a list
of items (a singleton list when the payload is not a JSON array).  An
AttributeError escaping the @type scan aborts the whole count. -/
def count_jsonld_events : List (Option PyVal) → Except String Nat
  | [] => .ok 0
  | osc :: rest =>
    let here : Except String Nat :=
      match osc with
      | none => .ok 0
      | some (.list xs) => countItems xs
      | some d => countItems [d]
    match here with
    | .error m => .error m
    | .ok k =>
      match count_jsonld_events rest with
      | .error m => .error m
      | .ok n => .ok (k + n)

/-- Qualification test of one anchor in find_candidate_event_links:
href stripped, then the empty / fragment / mailto exclusions, then the
keyword pattern against the href or the visible text. -/
def qualifiesLink (a : Anchor) : Bool :=
  let href := pyStrip a.href
  if href == "" || pyStartsWith "#" href || pyStartsWith "mailto:" href then false
  else containsAnyLower EVENT_LINK_KEYWORDS href || containsAnyLower EVENT_LINK_KEYWORDS a.text

/-- The loop of find_candidate_event_links: walk the anchors in document
order, resolve each qualifying href against the base URL (urljoin is the
black-box resolver uj), and keep the first occurrence of each resolved URL. -/
def harvestGo (uj : String → String → String) (base : String)
    : List Anchor → List String → List String
  | [], _ => []
  | a :: rest, seen =>
    if qualifiesLink a then
      let full := uj base (pyStrip a.href)
      if full ∈ seen then harvestGo uj base rest seen
      else full :: harvestGo uj base rest (full :: seen)
    else harvestGo uj base rest seen

/-- Translation of find_candidate_event_links (results capped at 10). -/
def find_candidate_event_links (uj : String → String → String)
    (anchors : List Anchor) (base : String) : List String :=
  (harvestGo uj base anchors []).take 10

/-! ## Tier classification -/

/-- Translation of the tier classification block of probe_url: a chain of
conditions evaluated top to bottom, first match wins. -/
def classifyTier (tech : List String) (cnt : Nat) (sub : Bool)
    (cands : List String) : String :=
  if 0 < cnt then "T0"
  else if ("wordpress" ∈ tech ∨ "drupal" ∈ tech) ∧ sub = true then "T1"
  else if ∃ t ∈ ["squarespace", "wix", "nextjs", "elementor", "webflow"], t ∈ tech then "T2"
  else if sub = true ∨ cands ≠ [] then "T1"
  else "SKIP"

/-! ## Prober -/

/-- The result dict as initialized at the top of probe_url. -/
def initResult (e : CandidateEntry) : ProbeResult :=
  { name := e.name, domain := e.domain, final_url := e.url, status := 0,
    tech_stack := "unknown", jsonld_event_count := 0, events_subpage := false,
    tribe_api := false, tier_guess := "SKIP", candidate_urls := [], error := none }

/-- Translation of probe_url.  The branches mirror the source: the three
except clauses; the early return on status >= 400; the fingerprint and
tech_stack assignment; the JSON-LD count whose escaping exception lands in
the generic except clause with every field assigned so far kept; and on
full success the link harvest, the subpage checks, the guarded tribe check
and the tier classification. -/
def probe_url (uj : String → String → String) (e : CandidateEntry)
    (net : Network) : ProbeResult :=
  let r0 := initResult e
  match net.fetch with
  | .timeout => { r0 with error := some "timeout" }
  | .tooManyRedirects => { r0 with error := some "too_many_redirects" }
  | .exn msg => { r0 with error := some (pyTake80 msg) }
  | .response finalUrl status body =>
    let r1 := { r0 with final_url := finalUrl, status := status }
    if 400 ≤ status then
      { r1 with error := some ("HTTP " ++ toString status) }
    else
      let tech := detect_tech body.raw
      let r2 := { r1 with tech_stack := pyJoinC ',' tech }
      match count_jsonld_events body.jsonldScripts with
      | .error msg => { r2 with error := some (pyTake80 msg) }
      | .ok cnt =>
        let cands := find_candidate_event_links uj body.anchors finalUrl
        let sub := net.eventsSub || net.calendarSub
        let tribe := if "wordpress" ∈ tech ∨ "tribe-events" ∈ tech then net.tribeApi else false
        { r2 with jsonld_event_count := cnt, candidate_urls := cands,
                  events_subpage := sub, tribe_api := tribe,
                  tier_guess := classifyTier tech cnt sub cands }

/-! ## Discovery, static input, concurrency controller, main -/

/-- Translation of is_arts_community. -/
def is_arts_community (tags : List String) : Bool :=
  tags.any (fun tag => ARTS_TAGS.any (fun arts => pyStartsWith arts tag))

/-- RawEntry: one entry of the directory feed (name, link, tags), the
black-box JSON having been decoded. -/
structure RawEntry where
  name : String
  link : String
  tags : List String
deriving Repr, DecidableEq

/-- Translation of the filtering loop of discover_t0ronto_urls.  netlocOf
is the black-box urlparse(...).netloc. -/
def discover_t0ronto_urls (netlocOf : String → String) (configured : List String)
    (communities : List RawEntry) : List CandidateEntry :=
  communities.filterMap (fun entry =>
    if entry.link = "" ∨ ¬ pyStartsWith "http" entry.link then none
    else
      let domain := deriveDomain (netlocOf entry.link)
      if containsAnyLower SKIP_DOMAINS domain then none
      else
        let base := pyLstripWwwDot domain
        if base ∈ configured ∨ domain ∈ configured then none
        else if ¬ is_arts_community entry.tags then none
        else some { name := entry.name, url := entry.link,
                    domain := domain, tags := entry.tags })

/-- Translation of the static --input loader of main: strip each line,
drop blank lines, derive the domain, build the entry. -/
def loadStaticEntries (netlocOf : String → String) (raws : List String)
    : List CandidateEntry :=
  ((raws.map pyStrip).filter (fun u => u ≠ "")).map (fun u =>
    let d := deriveDomain (netlocOf u)
    { name := d, url := u, domain := d, tags := [] })

/-- The fallback result dict built by the controller loop when
future.result() raises (the defensive double guard in main). -/
def fallbackResult (e : CandidateEntry) (msg : String) : ProbeResult :=
  { initResult e with error := some (pyTake80 msg) }

/-- Translation of the concurrency controller of main: every entry is
submitted once and yields exactly one result — probe_url applied to the
entry, or, when an exception escapes the unit of work itself (crash),
the fallback result.  Completion order is irrelevant to the result
multiset; the submission-order list is the canonical summary. -/
def runBatch (uj : String → String → String) (entries : List CandidateEntry)
    (net : CandidateEntry → Network) (crash : CandidateEntry → Option String)
    : List ProbeResult :=
  entries.map (fun e =>
    match crash e with
    | some msg => fallbackResult e msg
    | none => probe_url uj e (net e))

/-- Model of entries[:n] for an int n (Python slice semantics: a negative
bound counts from the end, clamped at zero). -/
def pySliceTo (n : Int) (l : List CandidateEntry) : List CandidateEntry :=
  if 0 ≤ n then l.take n.toNat else l.take (l.length - (-n).toNat)

/-- Translation of the --limit handling of main: the truthiness test
if args.limit: means a limit of 0 (like None) leaves the list whole. -/
def applyLimit (limit : Option Int) (entries : List CandidateEntry)
    : List CandidateEntry :=
  match limit with
  | some n => if n ≠ 0 then pySliceTo n entries else entries
  | none => entries

/-- Candidate assembly of main: the static input file when --input is
given, otherwise directory discovery (a failed directory fetch is the
feed = [] case). -/
def assembleEntries (netlocOf : String → String) (configured : List String)
    (feed : List RawEntry) (staticInput : Option (List String))
    : List CandidateEntry :=
  match staticInput with
  | some raws => loadStaticEntries netlocOf raws
  | none => discover_t0ronto_urls netlocOf configured feed

/-- Translation of the control flow of main after argument parsing:
assemble, limit, early return when empty, otherwise probe everything.
The first component is the process exit status: main returns normally in
every path, so it is 0 throughout. -/
def runMain (uj : String → String → String) (netlocOf : String → String)
    (configured : List String) (feed : List RawEntry)
    (staticInput : Option (List String)) (limit : Option Int)
    (net : CandidateEntry → Network) (crash : CandidateEntry → Option String)
    : Nat × List ProbeResult :=
  let entries := applyLimit limit (assembleEntries netlocOf configured feed staticInput)
  if entries = [] then (0, [])
  else (0, runBatch uj entries net crash)

/-! ## Reporter: TSV -/

/-- Boolean encoding used by the TSV writer. -/
def boolYesNo (b : Bool) : String := if b then "yes" else "no"

/-- Translation of result_to_tsv_row: the nine columns joined by tabs. -/
def result_to_tsv_row (r : ProbeResult) : String :=
  pyJoinC '\t'
    [ r.domain, r.final_url, toString r.status, r.tech_stack,
      toString r.jsonld_event_count, boolYesNo r.events_subpage,
      boolYesNo r.tribe_api, r.tier_guess, pyJoinC '|' r.candidate_urls ]

/-- The nine field values of a result in TSV column order (what parsing a
row by column position should reproduce). -/
def tsvColumns (r : ProbeResult) : List String :=
  [ r.domain, r.final_url, toString r.status, r.tech_stack,
    toString r.jsonld_event_count, boolYesNo r.events_subpage,
    boolYesNo r.tribe_api, r.tier_guess, pyJoinC '|' r.candidate_urls ]

/-! ## Concrete example inputs used by witnesses and counterexamples -/

def ujId : String → String → String := fun _ href => href

def ent0 : CandidateEntry :=
  { name := "org", url := "https://example.org/", domain := "example.org", tags := [] }

def bodyEmpty : HtmlDoc := { raw := "", jsonldScripts := [], anchors := [] }

def net404 : Network :=
  { fetch := .response "https://example.org/x" 404 bodyEmpty,
    eventsSub := false, calendarSub := false, tribeApi := false }

def bodyBadLd : HtmlDoc :=
  { raw := "squarespace theme",
    jsonldScripts := [some (.dict [("@type", PyVal.list [PyVal.int 1])])],
    anchors := [] }

def netBadLd : Network :=
  { fetch := .response "https://example.org/" 200 bodyBadLd,
    eventsSub := false, calendarSub := false, tribeApi := false }

def bodyOk : HtmlDoc :=
  { raw := "wp-content assets",
    jsonldScripts := [some (.dict [("@type", PyVal.str "Event")])],
    anchors := [{ href := "/events/", text := "Events" }] }

def netOk : Network :=
  { fetch := .response "https://example.org/" 200 bodyOk,
    eventsSub := true, calendarSub := false, tribeApi := true }

def netDown : Network :=
  { fetch := .timeout, eventsSub := false, calendarSub := false, tribeApi := false }

def nlW : String → String := fun u => if u = "https://cfg.org/" then "cfg.org" else "other.org"

def feedW : List RawEntry :=
  [ { name := "A", link := "https://cfg.org/", tags := ["topic/art-form"] },
    { name := "B", link := "https://other.org/", tags := ["topic/art-form"] } ]

def entB : CandidateEntry :=
  { name := "B", url := "https://other.org/", domain := "other.org",
    tags := ["topic/art-form"] }

def anchorsW : List Anchor :=
  [ { href := " /events/ ", text := "All events" },
    { href := "#", text := "Events" },
    { href := "mailto:a@b.org", text := "calendar" },
    { href := "/about", text := "About us" },
    { href := "/events/", text := "again" } ]

def netTab : Network :=
  { fetch := .response "a\tb" 404 bodyEmpty,
    eventsSub := false, calendarSub := false, tribeApi := false }

def entriesW : List CandidateEntry :=
  [ { name := "a", url := "u1", domain := "d1", tags := [] },
    { name := "b", url := "u2", domain := "d2", tags := [] },
    { name := "c", url := "u3", domain := "d3", tags := [] } ]

/-! ## Helper lemmas -/

theorem probe_url_timeout (uj : String → String → String) (e : CandidateEntry)
    (net : Network) (h : net.fetch = .timeout) :
    probe_url uj e net = { initResult e with error := some "timeout" } := by
  unfold probe_url
  rw [h]

theorem probe_url_redirects (uj : String → String → String) (e : CandidateEntry)
    (net : Network) (h : net.fetch = .tooManyRedirects) :
    probe_url uj e net = { initResult e with error := some "too_many_redirects" } := by
  unfold probe_url
  rw [h]

theorem probe_url_exn (uj : String → String → String) (e : CandidateEntry)
    (net : Network) (m : String) (h : net.fetch = .exn m) :
    probe_url uj e net = { initResult e with error := some (pyTake80 m) } := by
  unfold probe_url
  rw [h]

theorem probe_url_ge400 (uj : String → String → String) (e : CandidateEntry)
    (net : Network) (u : String) (s : Nat) (body : HtmlDoc)
    (h : net.fetch = .response u s body) (hs : 400 ≤ s) :
    probe_url uj e net =
      { initResult e with
        final_url := u,
        status := s,
        error := some ("HTTP " ++ toString s) } := by
  unfold probe_url
  rw [h]
  simp only [if_pos hs]

theorem probe_url_ok (uj : String → String → String) (e : CandidateEntry)
    (net : Network) (u : String) (s : Nat) (body : HtmlDoc) (cnt : Nat)
    (h : net.fetch = .response u s body) (hs : s < 400)
    (hc : count_jsonld_events body.jsonldScripts = .ok cnt) :
    probe_url uj e net =
      { name := e.name, domain := e.domain, final_url := u, status := s,
        tech_stack := pyJoinC ',' (detect_tech body.raw),
        jsonld_event_count := cnt,
        events_subpage := net.eventsSub || net.calendarSub,
        tribe_api := if "wordpress" ∈ detect_tech body.raw ∨ "tribe-events" ∈ detect_tech body.raw
                     then net.tribeApi else false,
        tier_guess := classifyTier (detect_tech body.raw) cnt
          (net.eventsSub || net.calendarSub)
          (find_candidate_event_links uj body.anchors u),
        candidate_urls := find_candidate_event_links uj body.anchors u,
        error := none } := by
  unfold probe_url
  rw [h]
  simp only [if_neg (Nat.not_le.mpr hs), hc]
  rfl

theorem probe_url_counterr (uj : String → String → String) (e : CandidateEntry)
    (net : Network) (u : String) (s : Nat) (body : HtmlDoc) (m : String)
    (h : net.fetch = .response u s body) (hs : s < 400)
    (hc : count_jsonld_events body.jsonldScripts = .error m) :
    probe_url uj e net =
      { initResult e with
        final_url := u,
        status := s,
        tech_stack := pyJoinC ',' (detect_tech body.raw),
        error := some (pyTake80 m) } := by
  unfold probe_url
  rw [h]
  simp only [if_neg (Nat.not_le.mpr hs), hc]

theorem classifyTier_eq_T0_iff (tech : List String) (cnt : Nat) (sub : Bool)
    (cands : List String) :
    classifyTier tech cnt sub cands = "T0" ↔ 0 < cnt := by
  unfold classifyTier
  split_ifs with h1 h2 h3 h4
  · simp [h1]
  · simp [h1]
  · simp [h1]
  · simp [h1]
  · simp [h1]

theorem probe_url_T0_iff (uj : String → String → String) (e : CandidateEntry)
    (net : Network) :
    (probe_url uj e net).tier_guess = "T0" ↔
      0 < (probe_url uj e net).jsonld_event_count := by
  rcases hf : net.fetch with _ | _ | m | ⟨u, s, body⟩
  · rw [probe_url_timeout uj e net hf]; simp [initResult]
  · rw [probe_url_redirects uj e net hf]; simp [initResult]
  · rw [probe_url_exn uj e net m hf]; simp [initResult]
  · by_cases hs : 400 ≤ s
    · rw [probe_url_ge400 uj e net u s body hf hs]; simp [initResult]
    · rcases hc : count_jsonld_events body.jsonldScripts with m | cnt
      · rw [probe_url_counterr uj e net u s body m hf (Nat.not_le.mp hs) hc]
        simp [initResult]
      · rw [probe_url_ok uj e net u s body cnt hf (Nat.not_le.mp hs) hc]
        exact classifyTier_eq_T0_iff _ _ _ _

theorem fallbackResult_fields (e : CandidateEntry) (m : String) :
    (fallbackResult e m).tier_guess = "SKIP" ∧
    (fallbackResult e m).jsonld_event_count = 0 ∧
    (fallbackResult e m).domain = e.domain ∧
    (fallbackResult e m).name = e.name := by
  exact ⟨rfl, rfl, rfl, rfl⟩

theorem runBatch_mem {uj : String → String → String} {entries : List CandidateEntry}
    {net : CandidateEntry → Network} {crash : CandidateEntry → Option String}
    {r : ProbeResult} (hr : r ∈ runBatch uj entries net crash) :
    ∃ e ∈ entries,
      r = (match crash e with
           | some m => fallbackResult e m
           | none => probe_url uj e (net e)) := by
  unfold runBatch at hr
  rcases List.mem_map.mp hr with ⟨e, he, heq⟩
  exact ⟨e, he, heq.symm⟩

theorem runBatch_length (uj : String → String → String) (entries : List CandidateEntry)
    (net : CandidateEntry → Network) (crash : CandidateEntry → Option String) :
    (runBatch uj entries net crash).length = entries.length := by
  unfold runBatch
  exact List.length_map _ _

theorem probe_url_name_domain (uj : String → String → String) (e : CandidateEntry)
    (net : Network) :
    (probe_url uj e net).name = e.name ∧ (probe_url uj e net).domain = e.domain := by
  rcases hf : net.fetch with _ | _ | m | ⟨u, s, body⟩
  · rw [probe_url_timeout uj e net hf]; exact ⟨rfl, rfl⟩
  · rw [probe_url_redirects uj e net hf]; exact ⟨rfl, rfl⟩
  · rw [probe_url_exn uj e net m hf]; exact ⟨rfl, rfl⟩
  · by_cases hs : 400 ≤ s
    · rw [probe_url_ge400 uj e net u s body hf hs]; exact ⟨rfl, rfl⟩
    · rcases hc : count_jsonld_events body.jsonldScripts with m | cnt
      · rw [probe_url_counterr uj e net u s body m hf (Nat.not_le.mp hs) hc]
        exact ⟨rfl, rfl⟩
      · rw [probe_url_ok uj e net u s body cnt hf (Nat.not_le.mp hs) hc]
        exact ⟨rfl, rfl⟩

theorem runBatch_T0_iff {uj : String → String → String} {entries : List CandidateEntry}
    {net : CandidateEntry → Network} {crash : CandidateEntry → Option String}
    {r : ProbeResult} (hr : r ∈ runBatch uj entries net crash) :
    (r.tier_guess = "T0" ↔ 0 < r.jsonld_event_count) := by
  rcases runBatch_mem hr with ⟨e, _, heq⟩
  rcases hcr : crash e with _ | m
  · rw [hcr] at heq
    subst heq
    exact probe_url_T0_iff uj e (net e)
  · rw [hcr] at heq
    have heq2 : r = fallbackResult e m := heq
    subst heq2
    simp [fallbackResult, initResult]

theorem harvestGo_not_mem_seen (uj : String → String → String) (base : String)
    (anchors : List Anchor) (seen : List String) (u : String)
    (hu : u ∈ harvestGo uj base anchors seen) : u ∉ seen := by
  induction anchors generalizing seen with
  | nil => simp [harvestGo] at hu
  | cons a rest ih =>
    unfold harvestGo at hu
    by_cases hq : qualifiesLink a = true
    · rw [if_pos hq] at hu
      by_cases hm : uj base (pyStrip a.href) ∈ seen
      · rw [if_pos hm] at hu
        exact ih seen hu
      · rw [if_neg hm] at hu
        rcases List.mem_cons.mp hu with h | h
        · subst h; exact hm
        · intro hs
          exact ih _ h (List.mem_cons_of_mem _ hs)
    · rw [if_neg hq] at hu
      exact ih seen hu

theorem harvestGo_nodup (uj : String → String → String) (base : String)
    (anchors : List Anchor) (seen : List String) :
    (harvestGo uj base anchors seen).Nodup := by
  induction anchors generalizing seen with
  | nil => simp [harvestGo]
  | cons a rest ih =>
    unfold harvestGo
    by_cases hq : qualifiesLink a = true
    · rw [if_pos hq]
      by_cases hm : uj base (pyStrip a.href) ∈ seen
      · rw [if_pos hm]; exact ih seen
      · rw [if_neg hm]
        refine List.nodup_cons.mpr ⟨?_, ih _⟩
        intro hmem
        exact harvestGo_not_mem_seen uj base rest _ _ hmem (List.mem_cons_self _ _)
    · rw [if_neg hq]; exact ih seen

theorem harvestGo_sublist (uj : String → String → String) (base : String)
    (anchors : List Anchor) (seen : List String) :
    (harvestGo uj base anchors seen).Sublist
      ((anchors.filter (fun a => qualifiesLink a)).map (fun a => uj base (pyStrip a.href))) := by
  induction anchors generalizing seen with
  | nil => simp [harvestGo]
  | cons a rest ih =>
    unfold harvestGo
    by_cases hq : qualifiesLink a = true
    · rw [if_pos hq]
      rw [List.filter_cons_of_pos hq, List.map_cons]
      by_cases hm : uj base (pyStrip a.href) ∈ seen
      · rw [if_pos hm]
        exact (ih seen).cons _
      · rw [if_neg hm]
        exact (ih _).cons₂ _
    · rw [if_neg hq]
      rw [List.filter_cons_of_neg (by simpa using hq)]
      exact ih seen

theorem find_candidate_nodup (uj : String → String → String)
    (anchors : List Anchor) (base : String) :
    (find_candidate_event_links uj anchors base).Nodup :=
  (harvestGo_nodup uj base anchors []).sublist (List.take_sublist 10 _)

theorem find_candidate_sublist (uj : String → String → String)
    (anchors : List Anchor) (base : String) :
    (find_candidate_event_links uj anchors base).Sublist
      ((anchors.filter (fun a => qualifiesLink a)).map (fun a => uj base (pyStrip a.href))) :=
  (List.take_sublist 10 _).trans (harvestGo_sublist uj base anchors [])

theorem splitChar_no_sep (sep : Char) (l : List Char) (h : sep ∉ l) :
    splitChar sep l = [l] := by
  induction l with
  | nil => rfl
  | cons c cs ih =>
    unfold splitChar
    have hc : ¬ c = sep := fun hceq => h (hceq ▸ List.mem_cons_self c cs)
    rw [ih (fun hm => h (List.mem_cons_of_mem c hm))]
    simp [hc]

theorem splitChar_append_sep (sep : Char) (p rest : List Char) (hp : sep ∉ p) :
    splitChar sep (p ++ sep :: rest) = p :: splitChar sep rest := by
  induction p with
  | nil => simp [splitChar]
  | cons c p' ih =>
    have hc : ¬ c = sep := fun hceq => hp (hceq ▸ List.mem_cons_self c p')
    have ih2 := ih (fun hm => hp (List.mem_cons_of_mem c hm))
    have hsh : (c :: p') ++ sep :: rest = c :: (p' ++ sep :: rest) := rfl
    rw [hsh]
    simp [splitChar, ih2, hc]

theorem splitChar_joinChar (sep : Char) (parts : List (List Char))
    (hne : parts ≠ []) (hsep : ∀ p ∈ parts, sep ∉ p) :
    splitChar sep (joinChar sep parts) = parts := by
  induction parts with
  | nil => exact absurd rfl hne
  | cons p ps ih =>
    cases ps with
    | nil =>
      unfold joinChar
      exact splitChar_no_sep sep p (hsep p (List.mem_cons_self _ _))
    | cons q qs =>
      have hj : joinChar sep (p :: q :: qs) = p ++ sep :: joinChar sep (q :: qs) := rfl
      rw [hj, splitChar_append_sep sep p _ (hsep p (List.mem_cons_self _ _))]
      rw [ih (by simp) (fun x hx => hsep x (List.mem_cons_of_mem p hx))]

theorem mk_toList (s : String) : String.mk s.toList = s := rfl

theorem pySplitC_pyJoinC (sep : Char) (parts : List String)
    (hne : parts ≠ []) (hsep : ∀ p ∈ parts, sep ∉ p.toList) :
    pySplitC sep (pyJoinC sep parts) = parts := by
  unfold pySplitC pyJoinC
  have h1 : (String.mk (joinChar sep (parts.map String.toList))).toList
      = joinChar sep (parts.map String.toList) := rfl
  rw [h1]
  rw [splitChar_joinChar sep (parts.map String.toList)
    (by simpa using hne)
    (by
      intro p hp
      rcases List.mem_map.mp hp with ⟨q, hq, rfl⟩
      exact hsep q hq)]
  rw [List.map_map]
  have : (String.mk ∘ String.toList) = id := by
    funext s
    rfl
  rw [this, List.map_id]

theorem static_not_mem_techMatches (html : String) :
    "static" ∉ techMatches html := by
  intro hmem
  unfold techMatches at hmem
  rcases List.mem_map.mp hmem with ⟨p, hp, hps⟩
  have hnames : p ∈ TECH_PATTERNS := List.mem_of_mem_filter hp
  have : p.1 ∈ TECH_PATTERNS.map (fun q => q.1) := List.mem_map_of_mem _ hnames
  rw [hps] at this
  revert this
  decide

theorem detect_tech_spec (html : String) :
    detect_tech html ≠ [] ∧
      (detect_tech html = ["static"] ↔ techMatches html = []) := by
  unfold detect_tech
  by_cases h : techMatches html = []
  · simp [h]
  · constructor
    · simp [h]
    · simp only [if_neg h]
      constructor
      · intro he
        have : "static" ∈ techMatches html := by
          rw [he]; exact List.mem_cons_self _ _
        exact absurd this (static_not_mem_techMatches html)
      · intro he
        exact absurd he h

theorem discover_domain_not_configured (netlocOf : String → String)
    (configured : List String) (communities : List RawEntry)
    (e : CandidateEntry)
    (he : e ∈ discover_t0ronto_urls netlocOf configured communities) :
    e.domain ∉ configured := by
  unfold discover_t0ronto_urls at he
  rcases List.mem_filterMap.mp he with ⟨raw, _, hsome⟩
  by_cases h1 : raw.link = "" ∨ ¬ pyStartsWith "http" raw.link
  · rw [if_pos h1] at hsome; exact absurd hsome (by simp)
  · rw [if_neg h1] at hsome
    by_cases h2 : containsAnyLower SKIP_DOMAINS (deriveDomain (netlocOf raw.link)) = true
    · rw [if_pos h2] at hsome; exact absurd hsome (by simp)
    · rw [if_neg h2] at hsome
      by_cases h3 : pyLstripWwwDot (deriveDomain (netlocOf raw.link)) ∈ configured ∨
          deriveDomain (netlocOf raw.link) ∈ configured
      · rw [if_pos h3] at hsome; exact absurd hsome (by simp)
      · rw [if_neg h3] at hsome
        by_cases h4 : ¬ is_arts_community raw.tags = true
        · rw [if_pos h4] at hsome; exact absurd hsome (by simp)
        · rw [if_neg h4] at hsome
          have : e.domain = deriveDomain (netlocOf raw.link) := by
            have := Option.some.inj hsome
            rw [← this]
          rw [this]
          intro hmem
          exact h3 (Or.inr hmem)

theorem applyLimit_subset (limit : Option Int) (entries : List CandidateEntry)
    (e : CandidateEntry) (he : e ∈ applyLimit limit entries) : e ∈ entries := by
  rcases limit with _ | n
  · exact he
  · have he2 : e ∈ (if n ≠ 0 then pySliceTo n entries else entries) := he
    by_cases hn : n ≠ 0
    · rw [if_pos hn] at he2
      unfold pySliceTo at he2
      by_cases hnn : 0 ≤ n
      · rw [if_pos hnn] at he2
        exact List.take_subset _ _ he2
      · rw [if_neg hnn] at he2
        exact List.take_subset _ _ he2
    · rw [if_neg hn] at he2
      exact he2

theorem runMain_exit_zero (uj : String → String → String) (netlocOf : String → String)
    (configured : List String) (feed : List RawEntry)
    (staticInput : Option (List String)) (limit : Option Int)
    (net : CandidateEntry → Network) (crash : CandidateEntry → Option String) :
    (runMain uj netlocOf configured feed staticInput limit net crash).1 = 0 := by
  unfold runMain
  by_cases h : applyLimit limit (assembleEntries netlocOf configured feed staticInput) = []
  · rw [if_pos h]
  · rw [if_neg h]

theorem runMain_snd_length (uj : String → String → String) (netlocOf : String → String)
    (configured : List String) (feed : List RawEntry)
    (staticInput : Option (List String)) (limit : Option Int)
    (net : CandidateEntry → Network) (crash : CandidateEntry → Option String) :
    (runMain uj netlocOf configured feed staticInput limit net crash).2.length =
      (applyLimit limit (assembleEntries netlocOf configured feed staticInput)).length := by
  unfold runMain
  by_cases h : applyLimit limit (assembleEntries netlocOf configured feed staticInput) = []
  · rw [if_pos h, h]
    rfl
  · rw [if_neg h]
    exact runBatch_length _ _ _ _

theorem runMain_mem_domain (uj : String → String → String) (netlocOf : String → String)
    (configured : List String) (feed : List RawEntry) (limit : Option Int)
    (net : CandidateEntry → Network) (crash : CandidateEntry → Option String)
    (r : ProbeResult)
    (hr : r ∈ (runMain uj netlocOf configured feed none limit net crash).2) :
    r.domain ∉ configured := by
  unfold runMain at hr
  by_cases h : applyLimit limit (assembleEntries netlocOf configured feed none) = []
  · rw [if_pos h] at hr
    exact absurd hr (by simp)
  · rw [if_neg h] at hr
    rcases runBatch_mem hr with ⟨e, he, heq⟩
    have hedom : e ∈ discover_t0ronto_urls netlocOf configured feed :=
      applyLimit_subset limit _ e he
    have hnotin := discover_domain_not_configured netlocOf configured feed e hedom
    rcases hcr : crash e with _ | m
    · rw [hcr] at heq
      have heq2 : r = probe_url uj e (net e) := heq
      rw [heq2, (probe_url_name_domain uj e (net e)).2]
      exact hnotin
    · rw [hcr] at heq
      have heq2 : r = fallbackResult e m := heq
      rw [heq2]
      exact hnotin

/-- C1 counterexample: a successfully fetched probe (status 200) whose body
carries a JSON-LD block with a non-string element in its type list: the
probe aborts before classification, so tier_guess stays SKIP although the
claimed rule list, evaluated on the signals of the result, yields T2 (the
squarespace fingerprint matched). -/
theorem tier_classification_skip_on_analysis_exception :
    (probe_url ujId ent0 netBadLd).status = 200 ∧
    classifyTier (detect_tech bodyBadLd.raw)
      (probe_url ujId ent0 netBadLd).jsonld_event_count
      (probe_url ujId ent0 netBadLd).events_subpage
      (probe_url ujId ent0 netBadLd).candidate_urls = "T2" ∧
    (probe_url ujId ent0 netBadLd).tier_guess = "SKIP" := by
  decide

/-- C1 (amended): the tier classifier evaluates its rules in strict
priority order, first match wins — T0 on a positive JSON-LD event count,
else T1 on wordpress/drupal with an events subpage, else T2 on a JS-heavy
builder fingerprint, else T1 on an events subpage or candidate links, else
SKIP; a probe whose fetch succeeded below 400 and whose JSON-LD count
completed is classified exactly by this function; and for every result the
batch produces, tier_guess is T0 exactly when jsonld_event_count is
positive. -/
theorem tier_classification_priority :
    (∀ (tech : List String) (cnt : Nat) (sub : Bool) (cands : List String),
       0 < cnt → classifyTier tech cnt sub cands = "T0") ∧
    (∀ (tech : List String) (cnt : Nat) (sub : Bool) (cands : List String),
       cnt = 0 → ("wordpress" ∈ tech ∨ "drupal" ∈ tech) → sub = true →
       classifyTier tech cnt sub cands = "T1") ∧
    (∀ (tech : List String) (cnt : Nat) (sub : Bool) (cands : List String),
       cnt = 0 → ¬ (("wordpress" ∈ tech ∨ "drupal" ∈ tech) ∧ sub = true) →
       (∃ t ∈ ["squarespace", "wix", "nextjs", "elementor", "webflow"], t ∈ tech) →
       classifyTier tech cnt sub cands = "T2") ∧
    (∀ (tech : List String) (cnt : Nat) (sub : Bool) (cands : List String),
       cnt = 0 → ¬ (("wordpress" ∈ tech ∨ "drupal" ∈ tech) ∧ sub = true) →
       ¬ (∃ t ∈ ["squarespace", "wix", "nextjs", "elementor", "webflow"], t ∈ tech) →
       (sub = true ∨ cands ≠ []) →
       classifyTier tech cnt sub cands = "T1") ∧
    (∀ (tech : List String) (cnt : Nat) (sub : Bool) (cands : List String),
       cnt = 0 → ¬ (("wordpress" ∈ tech ∨ "drupal" ∈ tech) ∧ sub = true) →
       ¬ (∃ t ∈ ["squarespace", "wix", "nextjs", "elementor", "webflow"], t ∈ tech) →
       ¬ (sub = true ∨ cands ≠ []) →
       classifyTier tech cnt sub cands = "SKIP") ∧
    (∀ (uj : String → String → String) (e : CandidateEntry) (net : Network)
       (u : String) (s : Nat) (body : HtmlDoc) (cnt : Nat),
       net.fetch = .response u s body → s < 400 →
       count_jsonld_events body.jsonldScripts = .ok cnt →
       (probe_url uj e net).tier_guess =
         classifyTier (detect_tech body.raw) cnt (net.eventsSub || net.calendarSub)
           (find_candidate_event_links uj body.anchors u)) ∧
    (∀ (uj : String → String → String) (entries : List CandidateEntry)
       (net : CandidateEntry → Network) (crash : CandidateEntry → Option String)
       (r : ProbeResult), r ∈ runBatch uj entries net crash →
       (r.tier_guess = "T0" ↔ 0 < r.jsonld_event_count)) := by
  refine ⟨?_, ?_, ?_, ?_, ?_, ?_, ?_⟩
  · intro tech cnt sub cands h
    unfold classifyTier
    rw [if_pos h]
  · intro tech cnt sub cands h0 hwp hsub
    unfold classifyTier
    rw [if_neg (by omega), if_pos ⟨hwp, hsub⟩]
  · intro tech cnt sub cands h0 hn1 hex
    unfold classifyTier
    rw [if_neg (by omega), if_neg hn1, if_pos hex]
  · intro tech cnt sub cands h0 hn1 hn2 hor
    unfold classifyTier
    rw [if_neg (by omega), if_neg hn1, if_neg hn2, if_pos hor]
  · intro tech cnt sub cands h0 hn1 hn2 hn3
    unfold classifyTier
    rw [if_neg (by omega), if_neg hn1, if_neg hn2, if_neg hn3]
  · intro uj e net u s body cnt hf hs hc
    rw [probe_url_ok uj e net u s body cnt hf hs hc]
  · intro uj entries net crash r hr
    exact runBatch_T0_iff hr

/-- C1 witness: the priority rules and the T0 equivalence instantiated at
concrete inputs. -/
theorem tier_classification_priority_witness :
    classifyTier ["wordpress"] 0 true [] = "T1" ∧
    classifyTier ["squarespace"] 0 false [] = "T2" ∧
    ((probe_url ujId ent0 netOk).tier_guess = "T0" ↔
      0 < (probe_url ujId ent0 netOk).jsonld_event_count) := by
  refine ⟨?_, ?_, ?_⟩
  · exact tier_classification_priority.2.1 ["wordpress"] 0 true [] rfl (Or.inl (by decide)) rfl
  · exact tier_classification_priority.2.2.1 ["squarespace"] 0 false [] rfl (by decide) (by decide)
  · exact tier_classification_priority.2.2.2.2.2.2 ujId [ent0] (fun _ => netOk) (fun _ => none)
      (probe_url ujId ent0 netOk) (by simp [runBatch])

/-- C2: the domain derivation uses lstrip("www."), which removes every
leading w or dot: the host webflow.com is mangled to ebflow.com instead of
being left unchanged as the spec (one leading www. prefix removed, nothing
else) requires; the same derivation is used by the registry scan and the
static input loader. -/
theorem domain_lstrip_overstrips :
    deriveDomain "webflow.com" = "ebflow.com" ∧
    specDomainOfHost "webflow.com" = "webflow.com" ∧
    (loadStaticEntries (fun _ => "webflow.com") ["https://webflow.com/"]).map
      (fun e => e.domain) = ["ebflow.com"] ∧
    load_configured_domains ["www.example.com", "WebFlow.com"] =
      ["example.com", "ebflow.com"] := by
  decide

/-- C3 counterexample: on an HTTP 404 probe no fingerprint rule matched
(the body is never scanned) yet tech_stack is the untouched placeholder
unknown, not the singleton static as the claim, extended to failed probes,
demands. -/
theorem tech_stack_unknown_on_http_error :
    techMatches bodyEmpty.raw = [] ∧
    (probe_url ujId ent0 net404).tech_stack ≠ "static" ∧
    (probe_url ujId ent0 net404).tech_stack = "unknown" := by
  decide

/-- C3 (amended): detect_tech never returns an empty list and returns
exactly the singleton static when no fingerprint rule matched; every probe
whose fetch succeeded below 400 records the comma-joined detect_tech
output; fetch failures and HTTP errors keep the initial placeholder
unknown. -/
theorem tech_stack_static_iff_no_match :
    (∀ (html : String), detect_tech html ≠ [] ∧
       (detect_tech html = ["static"] ↔ techMatches html = [])) ∧
    (∀ (uj : String → String → String) (e : CandidateEntry) (net : Network)
       (u : String) (s : Nat) (body : HtmlDoc),
       net.fetch = .response u s body → s < 400 →
       (probe_url uj e net).tech_stack = pyJoinC ',' (detect_tech body.raw)) ∧
    (∀ (uj : String → String → String) (e : CandidateEntry) (net : Network)
       (u : String) (s : Nat) (body : HtmlDoc),
       net.fetch = .response u s body → 400 ≤ s →
       (probe_url uj e net).tech_stack = "unknown") ∧
    (∀ (uj : String → String → String) (e : CandidateEntry) (net : Network),
       net.fetch = .timeout ∨ net.fetch = .tooManyRedirects ∨
         (∃ m, net.fetch = .exn m) →
       (probe_url uj e net).tech_stack = "unknown") := by
  refine ⟨detect_tech_spec, ?_, ?_, ?_⟩
  · intro uj e net u s body hf hs
    rcases hc : count_jsonld_events body.jsonldScripts with m | cnt
    · rw [probe_url_counterr uj e net u s body m hf hs hc]
    · rw [probe_url_ok uj e net u s body cnt hf hs hc]
  · intro uj e net u s body hf hs
    rw [probe_url_ge400 uj e net u s body hf hs]
    rfl
  · intro uj e net hor
    rcases hor with h | h | ⟨m, h⟩
    · rw [probe_url_timeout uj e net h]; rfl
    · rw [probe_url_redirects uj e net h]; rfl
    · rw [probe_url_exn uj e net m h]; rfl

/-- C3 witness: the amended statement instantiated at a successful probe,
a 404 probe and the empty body. -/
theorem tech_stack_static_iff_no_match_witness :
    (probe_url ujId ent0 netOk).tech_stack = pyJoinC ',' (detect_tech bodyOk.raw) ∧
    (probe_url ujId ent0 net404).tech_stack = "unknown" ∧
    detect_tech "" = ["static"] := by
  refine ⟨?_, ?_, ?_⟩
  · exact tech_stack_static_iff_no_match.2.1 ujId ent0 netOk "https://example.org/" 200 bodyOk rfl (by decide)
  · exact tech_stack_static_iff_no_match.2.2.1 ujId ent0 net404 "https://example.org/x" 404 bodyEmpty rfl (by decide)
  · exact ((tech_stack_static_iff_no_match.1 "").2.mpr (by decide))

/-- C4: a probe whose main fetch returns a status of 400 or more stops
early — the result carries that status and error HTTP code, tier SKIP,
zero JSON-LD count, false subpage and tribe flags, no candidate links and
no recorded fingerprint. -/
theorem http_error_early_stop (uj : String → String → String) (e : CandidateEntry)
    (net : Network) (u : String) (s : Nat) (body : HtmlDoc)
    (h : net.fetch = .response u s body) (hs : 400 ≤ s) :
    probe_url uj e net =
      { name := e.name, domain := e.domain, final_url := u, status := s,
        tech_stack := "unknown", jsonld_event_count := 0, events_subpage := false,
        tribe_api := false, tier_guess := "SKIP", candidate_urls := [],
        error := some ("HTTP " ++ toString s) } := by
  rw [probe_url_ge400 uj e net u s body h hs]
  rfl

/-- C4 witness: the early stop instantiated at a concrete 404 response. -/
theorem http_error_early_stop_witness :
    probe_url ujId ent0 net404 =
      { name := "org", domain := "example.org", final_url := "https://example.org/x",
        status := 404, tech_stack := "unknown", jsonld_event_count := 0,
        events_subpage := false, tribe_api := false, tier_guess := "SKIP",
        candidate_urls := [], error := some "HTTP 404" } := by
  rw [http_error_early_stop ujId ent0 net404 "https://example.org/x" 404 bodyEmpty rfl (by decide)]
  decide

theorem runBatch_forall2 (uj : String → String → String) (entries : List CandidateEntry)
    (net : CandidateEntry → Network) (crash : CandidateEntry → Option String) :
    List.Forall₂ (fun e r => r.name = e.name ∧ r.domain = e.domain)
      entries (runBatch uj entries net crash) := by
  unfold runBatch
  induction entries with
  | nil => exact List.Forall₂.nil
  | cons e rest ih =>
    rw [List.map_cons]
    refine List.Forall₂.cons ?_ ih
    rcases hcr : crash e with _ | m
    · simp only [hcr]
      exact probe_url_name_domain uj e (net e)
    · simp only [hcr]
      exact ⟨rfl, rfl⟩

/-- C5 counterexample: an exception escaping the JSON-LD counting step is
recorded in error, but the result keeps the already-recorded HTTP status
200 — the claimed status == 0 does not hold for this probe. -/
theorem probe_exception_keeps_status :
    ¬ ((probe_url ujId ent0 netBadLd).error.isSome = true →
       (probe_url ujId ent0 netBadLd).status = 0) := by
  decide

/-- C5 (amended): each caught fetch exception yields a result with the
corresponding error tag, status 0 and tier SKIP; an exception escaping the
JSON-LD analysis step yields a result with the truncated exception text,
tier SKIP, and the fetch status retained; and the controller produces
exactly one result per submitted entry, preserving name and domain. -/
theorem probe_failure_isolation :
    (∀ (uj : String → String → String) (e : CandidateEntry) (net : Network),
       net.fetch = .timeout →
       probe_url uj e net = { initResult e with error := some "timeout" }) ∧
    (∀ (uj : String → String → String) (e : CandidateEntry) (net : Network),
       net.fetch = .tooManyRedirects →
       probe_url uj e net = { initResult e with error := some "too_many_redirects" }) ∧
    (∀ (uj : String → String → String) (e : CandidateEntry) (net : Network) (m : String),
       net.fetch = .exn m →
       probe_url uj e net = { initResult e with error := some (pyTake80 m) }) ∧
    (∀ (uj : String → String → String) (e : CandidateEntry) (net : Network)
       (u : String) (s : Nat) (body : HtmlDoc) (m : String),
       net.fetch = .response u s body → s < 400 →
       count_jsonld_events body.jsonldScripts = .error m →
       (probe_url uj e net).error = some (pyTake80 m) ∧
       (probe_url uj e net).status = s ∧
       (probe_url uj e net).tier_guess = "SKIP") ∧
    (∀ (uj : String → String → String) (entries : List CandidateEntry)
       (net : CandidateEntry → Network) (crash : CandidateEntry → Option String),
       (runBatch uj entries net crash).length = entries.length ∧
       List.Forall₂ (fun e r => r.name = e.name ∧ r.domain = e.domain)
         entries (runBatch uj entries net crash)) := by
  refine ⟨probe_url_timeout, probe_url_redirects, probe_url_exn, ?_, ?_⟩
  · intro uj e net u s body m hf hs hc
    rw [probe_url_counterr uj e net u s body m hf hs hc]
    exact ⟨rfl, rfl, rfl⟩
  · intro uj entries net crash
    exact ⟨runBatch_length uj entries net crash, runBatch_forall2 uj entries net crash⟩

/-- C5 witness: failure isolation instantiated at a timeout, at the
analysis-exception probe, and at a one-entry batch. -/
theorem probe_failure_isolation_witness :
    probe_url ujId ent0 netDown = { initResult ent0 with error := some "timeout" } ∧
    ((probe_url ujId ent0 netBadLd).error =
        some (pyTake80 "\x27int\x27 object has no attribute \x27lower\x27") ∧
      (probe_url ujId ent0 netBadLd).status = 200 ∧
      (probe_url ujId ent0 netBadLd).tier_guess = "SKIP") ∧
    (runBatch ujId [ent0] (fun _ => netDown) (fun _ => none)).length = 1 := by
  refine ⟨probe_failure_isolation.1 ujId ent0 netDown rfl, ?_, ?_⟩
  · exact probe_failure_isolation.2.2.2.1 ujId ent0 netBadLd "https://example.org/" 200 bodyBadLd
      "\x27int\x27 object has no attribute \x27lower\x27" rfl (by decide) rfl
  · exact (probe_failure_isolation.2.2.2.2 ujId [ent0] (fun _ => netDown) (fun _ => none)).1

/-- C6 counterexample: a configured domain supplied through the static
input file is probed — the static loader never consults the registry, so a
ProbeResult for example.com is produced although example.com is in the
configured set. -/
theorem static_input_bypasses_registry :
    "example.com" ∈ ["example.com"] ∧
    ¬ (∀ r ∈ (runMain ujId (fun _ => "example.com") ["example.com"] []
          (some ["https://example.com/"]) none (fun _ => netDown) (fun _ => none)).2,
        r.domain ≠ "example.com") := by
  decide

/-- C6 (amended): in directory-feed mode, discovery never emits an entry
whose domain is in the registry set, and no ProbeResult with such a domain
is produced by the whole run. -/
theorem registry_domains_not_probed_in_discovery :
    (∀ (netlocOf : String → String) (configured : List String) (feed : List RawEntry)
       (d : String), d ∈ configured →
       ∀ e ∈ discover_t0ronto_urls netlocOf configured feed, e.domain ≠ d) ∧
    (∀ (uj : String → String → String) (netlocOf : String → String)
       (configured : List String) (feed : List RawEntry) (limit : Option Int)
       (net : CandidateEntry → Network) (crash : CandidateEntry → Option String)
       (d : String), d ∈ configured →
       ∀ r ∈ (runMain uj netlocOf configured feed none limit net crash).2,
         r.domain ≠ d) := by
  constructor
  · intro netlocOf configured feed d hd e he heq
    exact discover_domain_not_configured netlocOf configured feed e he (heq ▸ hd)
  · intro uj netlocOf configured feed limit net crash d hd r hr heq
    exact runMain_mem_domain uj netlocOf configured feed limit net crash r hr (heq ▸ hd)

/-- C6 witness: the registry filter instantiated on a two-entry feed, one
configured and one not. -/
theorem registry_domains_not_probed_in_discovery_witness :
    ("cfg.org" ∈ ["cfg.org"]) ∧
    (probe_url ujId entB netDown ∈
      (runMain ujId nlW ["cfg.org"] feedW none none (fun _ => netDown) (fun _ => none)).2) ∧
    (probe_url ujId entB netDown).domain ≠ "cfg.org" := by
  refine ⟨by decide, by decide, ?_⟩
  exact registry_domains_not_probed_in_discovery.2 ujId nlW ["cfg.org"] feedW none (fun _ => netDown) (fun _ => none)
    "cfg.org" (by decide) _ (by decide)

/-- C7: candidate link harvesting returns at most ten URLs with no
duplicates, in first-seen document order (a sublist of the qualifying
anchors resolved in order), each produced from an anchor that passed the
keyword filter and the empty/fragment/mailto exclusions and was resolved
against the final page URL. -/
theorem candidate_links_contract (uj : String → String → String) (anchors : List Anchor) (base : String) :
    (find_candidate_event_links uj anchors base).length ≤ 10 ∧
    (find_candidate_event_links uj anchors base).Nodup ∧
    (find_candidate_event_links uj anchors base).Sublist
      ((anchors.filter (fun a => qualifiesLink a)).map (fun a => uj base (pyStrip a.href))) ∧
    (∀ u ∈ find_candidate_event_links uj anchors base,
       ∃ a, a ∈ anchors ∧ qualifiesLink a = true ∧ u = uj base (pyStrip a.href)) := by
  refine ⟨List.length_take_le 10 _, find_candidate_nodup uj anchors base,
    find_candidate_sublist uj anchors base, ?_⟩
  intro u hu
  have hmem := (find_candidate_sublist uj anchors base).subset hu
  rcases List.mem_map.mp hmem with ⟨a, ha, heq⟩
  exact ⟨a, List.mem_of_mem_filter ha, (List.mem_filter.mp ha).2, heq.symm⟩

/-- C7 witness: the harvesting contract instantiated on a concrete anchor
list with duplicates and excluded anchors. -/
theorem candidate_links_contract_witness :
    find_candidate_event_links ujId anchorsW "b" = ["/events/"] ∧
    (∃ a, a ∈ anchorsW ∧ qualifiesLink a = true ∧ "/events/" = ujId "b" (pyStrip a.href)) := by
  refine ⟨by decide, ?_⟩
  exact (candidate_links_contract ujId anchorsW "b").2.2.2 "/events/" (by decide)

/-- C8 counterexample: with no candidates assembled, the process exit
status is 0, refuting the claimed equivalence between a non-zero exit and
an empty candidate list. -/
theorem empty_candidates_exit_zero :
    ¬ (((runMain ujId (fun _ => "") [] [] none none
          (fun _ => netDown) (fun _ => none)).1 ≠ 0) ↔
       (applyLimit none (assembleEntries (fun _ => "") [] [] none) = [])) := by
  decide

/-- C8 (amended): main returns normally in every modeled path, so the
process exit status is always 0 — an empty candidate list causes an early
return without probing, and individual probe failures never change the
exit status. -/
theorem process_exit_always_zero (uj : String → String → String) (netlocOf : String → String)
    (configured : List String) (feed : List RawEntry)
    (staticInput : Option (List String)) (limit : Option Int)
    (net : CandidateEntry → Network) (crash : CandidateEntry → Option String) :
    (runMain uj netlocOf configured feed staticInput limit net crash).1 = 0 ∧
    (runMain uj netlocOf configured feed staticInput limit net crash).2.length =
      (applyLimit limit (assembleEntries netlocOf configured feed staticInput)).length :=
  ⟨runMain_exit_zero uj netlocOf configured feed staticInput limit net crash,
   runMain_snd_length uj netlocOf configured feed staticInput limit net crash⟩

/-- C9 counterexample: a result whose final URL contains a tab (reachable,
since the final URL is whatever the redirected response reports) produces
a TSV row that no longer splits back into its nine column values. -/
theorem tsv_row_tab_breaks_roundtrip :
    ¬ (pySplitC '\t' (result_to_tsv_row (probe_url ujId ent0 netTab)) =
       tsvColumns (probe_url ujId ent0 netTab)) := by
  decide

/-- C9 (amended): provided no written column string contains a tab, the
TSV row of a result splits back by column position into exactly the nine
encoded field values. -/
theorem tsv_roundtrip_no_tabs (r : ProbeResult) (h : ∀ c ∈ tsvColumns r, '\t' ∉ c.toList) :
    pySplitC '\t' (result_to_tsv_row r) = tsvColumns r := by
  have hrow : result_to_tsv_row r = pyJoinC '\t' (tsvColumns r) := rfl
  rw [hrow]
  exact pySplitC_pyJoinC '\t' (tsvColumns r) (by unfold tsvColumns; exact List.cons_ne_nil _ _) h

/-- C9 witness: the round trip instantiated at a concrete 404 result. -/
theorem tsv_roundtrip_no_tabs_witness :
    pySplitC '\t' (result_to_tsv_row (probe_url ujId ent0 net404)) =
      tsvColumns (probe_url ujId ent0 net404) :=
  tsv_roundtrip_no_tabs (probe_url ujId ent0 net404) (by decide)

/-- C10: a positive --limit n keeps exactly the first n candidate entries
(so min(n, total) are probed, in discovery order), while a limit of 0 is
falsy in the guard and leaves the list whole, like no limit at all. -/
theorem limit_cap_semantics :
    (∀ (n : Int) (entries : List CandidateEntry), 0 < n →
       applyLimit (some n) entries = entries.take n.toNat) ∧
    (∀ (entries : List CandidateEntry), applyLimit (some 0) entries = entries) ∧
    (∀ (entries : List CandidateEntry), applyLimit none entries = entries) ∧
    (∀ (uj : String → String → String) (netlocOf : String → String)
       (configured : List String) (feed : List RawEntry)
       (staticInput : Option (List String)) (net : CandidateEntry → Network)
       (crash : CandidateEntry → Option String) (n : Int), 0 < n →
       (runMain uj netlocOf configured feed staticInput (some n) net crash).2.length =
         min n.toNat (assembleEntries netlocOf configured feed staticInput).length) := by
  have hlim : ∀ (n : Int) (entries : List CandidateEntry), 0 < n →
      applyLimit (some n) entries = entries.take n.toNat := by
    intro n entries hn
    have h1 : n ≠ 0 := by omega
    have h2 : (0:Int) ≤ n := by omega
    show (if n ≠ 0 then pySliceTo n entries else entries) = entries.take n.toNat
    rw [if_pos h1]
    unfold pySliceTo
    rw [if_pos h2]
  refine ⟨hlim, ?_, ?_, ?_⟩
  · intro entries
    show (if (0:Int) ≠ 0 then pySliceTo 0 entries else entries) = entries
    rw [if_neg (by omega)]
  · intro entries
    rfl
  · intro uj netlocOf configured feed staticInput net crash n hn
    rw [runMain_snd_length, hlim n _ hn, List.length_take]

/-- C10 witness: the cap semantics instantiated at concrete entry lists
and a concrete run. -/
theorem limit_cap_semantics_witness :
    applyLimit (some 2) entriesW = entriesW.take 2 ∧
    applyLimit (some 0) entriesW = entriesW ∧
    (runMain ujId nlW [] [] (some ["https://a.org/", "https://b.org/"]) (some 1)
        (fun _ => netDown) (fun _ => none)).2.length =
      min 1 (assembleEntries nlW [] [] (some ["https://a.org/", "https://b.org/"])).length := by
  refine ⟨limit_cap_semantics.1 2 entriesW (by omega), limit_cap_semantics.2.1 entriesW, ?_⟩
  exact limit_cap_semantics.2.2.2 ujId nlW [] [] (some ["https://a.org/", "https://b.org/"])
    (fun _ => netDown) (fun _ => none) 1 (by omega)
